import Mathlib

/-!
Shallow embedding of the `squire-sqlite3-src` build-configuration crate
(`src/lib.rs`): the `Setting` registry of SQLite compile-time options, the
`SettingKey` discriminants, the per-setting rendering into preprocessor
(symbol, optional value) pairs, and the `Config` key-value store with its
documented defaults.

The external `cc::Build` compiler driver is out of scope; a setting's
`apply` is modelled as the list of (symbol, optional value) definitions it
forwards to the driver, in the order the source emits them.
-/

/-- Payload of the `DoubleQuotedStrings` setting: two independent boolean
sub-options (`in_ddl`, `in_dml`), mirroring the Rust struct. -/
structure DoubleQuotedStrings where
  in_ddl : Bool
  in_dml : Bool
deriving DecidableEq, Repr

/-- The derived `Default` for `DoubleQuotedStrings`: both fields `false`. -/
def DoubleQuotedStrings.default : DoubleQuotedStrings :=
  { in_ddl := false, in_dml := false }

/-- `TemporaryStorage` enum with explicit `usize` discriminants 0..3. -/
inductive TemporaryStorage where
  | AlwaysFilesystem
  | DefaultFilesystem
  | DefaultMemory
  | AlwaysMemory
deriving DecidableEq, Repr

/-- The Rust `as usize` projection for `TemporaryStorage`. -/
def TemporaryStorage.toUsize : TemporaryStorage → Nat
  | .AlwaysFilesystem => 0
  | .DefaultFilesystem => 1
  | .DefaultMemory => 2
  | .AlwaysMemory => 3

/-- `Threading` enum with explicit `usize` discriminants 0..2. -/
inductive Threading where
  | SingleThread
  | MultiThread
  | Serialized
deriving DecidableEq, Repr

/-- The Rust `as usize` projection for `Threading`. -/
def Threading.toUsize : Threading → Nat
  | .SingleThread => 0
  | .MultiThread => 1
  | .Serialized => 2

/-- `Synchronous` enum with explicit `usize` discriminants 0..3. -/
inductive Synchronous where
  | Off
  | Normal
  | Full
  | Extra
deriving DecidableEq, Repr

/-- The Rust `as usize` projection for `Synchronous`. -/
def Synchronous.toUsize : Synchronous → Nat
  | .Off => 0
  | .Normal => 1
  | .Full => 2
  | .Extra => 3

/-- A compile-time option for a SQLite build: the crate's `Setting` enum,
one constructor per variant, each carrying its payload. -/
inductive Setting where
  | DoubleQuotedStrings (value : DoubleQuotedStrings)
  | Threading (value : Threading)
  | Debug (enable : Bool)
  | Sync (value : Synchronous)
  | WalSync (value : Synchronous)
  | DefaultAutomaticIndex (enable : Bool)
  | DefaultAutomaticVacuum (enable : Bool)
  | DefaultForeignKeys (enable : Bool)
  | DefaultMemoryStatus (enable : Bool)
  | EnableAlloca (enable : Bool)
  | EnableApiArmor (enable : Bool)
  | EnableAuthorization (enable : Bool)
  | EnableAutomaticIndex (enable : Bool)
  | EnableAutomaticInitialize (enable : Bool)
  | EnableAutomaticReset (enable : Bool)
  | EnableBlobIo (enable : Bool)
  | EnableColumnDeclaredType (enable : Bool)
  | EnableColumnMetadata (enable : Bool)
  | EnableDatabasePagesVirtualTable (enable : Bool)
  | EnableDatabaseStatisticsVirtualTable (enable : Bool)
  | EnableDatabaseUri (enable : Bool)
  | EnableDeprecated (enable : Bool)
  | EnableGeopoly (enable : Bool)
  | EnableGetTable (enable : Bool)
  | EnableFts3 (enable : Bool)
  | EnableFts5 (enable : Bool)
  | EnableJson (enable : Bool)
  | EnableLoadExtension (enable : Bool)
  | EnableMemoryManagement (enable : Bool)
  | EnableNormalizeSql (enable : Bool)
  | EnablePreUpdateHook (enable : Bool)
  | EnableProgressCallback (enable : Bool)
  | EnableRtree (enable : Bool)
  | EnableStat4 (enable : Bool)
  | EnableSerialize (enable : Bool)
  | EnableSession (enable : Bool)
  | EnableSnapshot (enable : Bool)
  | EnableSharedCache (enable : Bool)
  | EnableSoundex (enable : Bool)
  | EnableTclVariables (enable : Bool)
  | EnableTemporaryDatabase (enable : Bool)
  | EnableTrace (enable : Bool)
  | EnableUtf16 (enable : Bool)
  | EnableVirtualTables (enable : Bool)
  | EnableWriteAheadLog (enable : Bool)
  | LikeOperatorCaseSensitive (enable : Bool)
  | LikeOperatorMatchesBlob (enable : Bool)
  | MaxAttachedDatabases (max : Nat)
  | MaxColumns (max : Nat)
  | MaxExpressionDepth (max : Nat)
  | MaxJsonDepth (max : Nat)
  | MaxVariables (max : Nat)
  | SecureDelete (enable : Bool)
  | TemporaryStorage (value : TemporaryStorage)
  | TrustedSchema (enable : Bool)
deriving Repr

/-- The discriminant type generated by `EnumDiscriminants`: one constructor
per `Setting` variant, carrying no payload. -/
inductive SettingKey where
  | DoubleQuotedStrings
  | Threading
  | Debug
  | Sync
  | WalSync
  | DefaultAutomaticIndex
  | DefaultAutomaticVacuum
  | DefaultForeignKeys
  | DefaultMemoryStatus
  | EnableAlloca
  | EnableApiArmor
  | EnableAuthorization
  | EnableAutomaticIndex
  | EnableAutomaticInitialize
  | EnableAutomaticReset
  | EnableBlobIo
  | EnableColumnDeclaredType
  | EnableColumnMetadata
  | EnableDatabasePagesVirtualTable
  | EnableDatabaseStatisticsVirtualTable
  | EnableDatabaseUri
  | EnableDeprecated
  | EnableGeopoly
  | EnableGetTable
  | EnableFts3
  | EnableFts5
  | EnableJson
  | EnableLoadExtension
  | EnableMemoryManagement
  | EnableNormalizeSql
  | EnablePreUpdateHook
  | EnableProgressCallback
  | EnableRtree
  | EnableStat4
  | EnableSerialize
  | EnableSession
  | EnableSnapshot
  | EnableSharedCache
  | EnableSoundex
  | EnableTclVariables
  | EnableTemporaryDatabase
  | EnableTrace
  | EnableUtf16
  | EnableVirtualTables
  | EnableWriteAheadLog
  | LikeOperatorCaseSensitive
  | LikeOperatorMatchesBlob
  | MaxAttachedDatabases
  | MaxColumns
  | MaxExpressionDepth
  | MaxJsonDepth
  | MaxVariables
  | SecureDelete
  | TemporaryStorage
  | TrustedSchema
deriving DecidableEq, Repr, Fintype

/-- The `discriminant` projection generated by `strum::EnumDiscriminants`:
maps each `Setting` to its `SettingKey`, ignoring the payload. -/
def Setting.discriminant : Setting → SettingKey
  | .DoubleQuotedStrings _ => .DoubleQuotedStrings
  | .Threading _ => .Threading
  | .Debug _ => .Debug
  | .Sync _ => .Sync
  | .WalSync _ => .WalSync
  | .DefaultAutomaticIndex _ => .DefaultAutomaticIndex
  | .DefaultAutomaticVacuum _ => .DefaultAutomaticVacuum
  | .DefaultForeignKeys _ => .DefaultForeignKeys
  | .DefaultMemoryStatus _ => .DefaultMemoryStatus
  | .EnableAlloca _ => .EnableAlloca
  | .EnableApiArmor _ => .EnableApiArmor
  | .EnableAuthorization _ => .EnableAuthorization
  | .EnableAutomaticIndex _ => .EnableAutomaticIndex
  | .EnableAutomaticInitialize _ => .EnableAutomaticInitialize
  | .EnableAutomaticReset _ => .EnableAutomaticReset
  | .EnableBlobIo _ => .EnableBlobIo
  | .EnableColumnDeclaredType _ => .EnableColumnDeclaredType
  | .EnableColumnMetadata _ => .EnableColumnMetadata
  | .EnableDatabasePagesVirtualTable _ => .EnableDatabasePagesVirtualTable
  | .EnableDatabaseStatisticsVirtualTable _ => .EnableDatabaseStatisticsVirtualTable
  | .EnableDatabaseUri _ => .EnableDatabaseUri
  | .EnableDeprecated _ => .EnableDeprecated
  | .EnableGeopoly _ => .EnableGeopoly
  | .EnableGetTable _ => .EnableGetTable
  | .EnableFts3 _ => .EnableFts3
  | .EnableFts5 _ => .EnableFts5
  | .EnableJson _ => .EnableJson
  | .EnableLoadExtension _ => .EnableLoadExtension
  | .EnableMemoryManagement _ => .EnableMemoryManagement
  | .EnableNormalizeSql _ => .EnableNormalizeSql
  | .EnablePreUpdateHook _ => .EnablePreUpdateHook
  | .EnableProgressCallback _ => .EnableProgressCallback
  | .EnableRtree _ => .EnableRtree
  | .EnableStat4 _ => .EnableStat4
  | .EnableSerialize _ => .EnableSerialize
  | .EnableSession _ => .EnableSession
  | .EnableSnapshot _ => .EnableSnapshot
  | .EnableSharedCache _ => .EnableSharedCache
  | .EnableSoundex _ => .EnableSoundex
  | .EnableTclVariables _ => .EnableTclVariables
  | .EnableTemporaryDatabase _ => .EnableTemporaryDatabase
  | .EnableTrace _ => .EnableTrace
  | .EnableUtf16 _ => .EnableUtf16
  | .EnableVirtualTables _ => .EnableVirtualTables
  | .EnableWriteAheadLog _ => .EnableWriteAheadLog
  | .LikeOperatorCaseSensitive _ => .LikeOperatorCaseSensitive
  | .LikeOperatorMatchesBlob _ => .LikeOperatorMatchesBlob
  | .MaxAttachedDatabases _ => .MaxAttachedDatabases
  | .MaxColumns _ => .MaxColumns
  | .MaxExpressionDepth _ => .MaxExpressionDepth
  | .MaxJsonDepth _ => .MaxJsonDepth
  | .MaxVariables _ => .MaxVariables
  | .SecureDelete _ => .SecureDelete
  | .TemporaryStorage _ => .TemporaryStorage
  | .TrustedSchema _ => .TrustedSchema

/-- The `SettingValue` trait: how a typed payload is forwarded to the
compiler driver as a definition for a given symbol name. -/
class SettingValue (α : Type) where
  apply : α → String → List (String × Option String)

instance : SettingValue Bool where
  apply b name := [(name, some (if b then "1" else "0"))]

instance : SettingValue Nat where
  apply n name := [(name, some (toString n))]

instance : SettingValue TemporaryStorage where
  apply v name := SettingValue.apply v.toUsize name

instance : SettingValue Threading where
  apply v name := SettingValue.apply v.toUsize name

instance : SettingValue Synchronous where
  apply v name := SettingValue.apply v.toUsize name

/-- `Setting::define`: emit the symbol with no value when `enable` is true,
and emit nothing otherwise. -/
def Setting.define (name : String) (enable : Bool) : List (String × Option String) :=
  if enable then [(name, none)] else []

/-- `Setting::set`: always emit the symbol with the payload's rendered
string value, via its `SettingValue` instance. -/
def Setting.set {α : Type} [SettingValue α] (name : String) (value : α) :
    List (String × Option String) :=
  SettingValue.apply value name

/-- `Setting::apply`: the rendering of one setting into the ordered list of
(symbol, optional value) definitions it forwards to the compiler driver. -/
def Setting.apply : Setting → List (String × Option String)
  | .Debug enable => Setting.define "SQLITE_DEBUG" enable
  | .DefaultAutomaticIndex enable => Setting.set "SQLITE_DEFAULT_AUTOMATIC_INDEX" enable
  | .DefaultAutomaticVacuum enable => Setting.set "SQLITE_DEFAULT_AUTOVACUUM" enable
  | .DefaultForeignKeys enable => Setting.set "SQLITE_DEFAULT_FOREIGN_KEYS" enable
  | .DefaultMemoryStatus enable => Setting.set "SQLITE_DEFAULT_MEMSTATUS" enable
  | .DoubleQuotedStrings v =>
      Setting.set "SQLITE_DQS"
        (match v.in_ddl, v.in_dml with
          | true, true => (3 : Nat)
          | true, false => 2
          | false, true => 1
          | false, false => 0)
  | .EnableAlloca enable => Setting.define "SQLITE_USE_ALLOCA" enable
  | .EnableApiArmor enable => Setting.define "SQLITE_ENABLE_API_ARMOR" enable
  | .EnableAuthorization enable => Setting.define "SQLITE_OMIT_AUTHORIZATION" (!enable)
  | .EnableAutomaticIndex enable => Setting.define "SQLITE_OMIT_AUTOMATIC_INDEX" (!enable)
  | .EnableAutomaticInitialize enable => Setting.define "SQLITE_OMIT_AUTOINIT" (!enable)
  | .EnableAutomaticReset enable => Setting.define "SQLITE_OMIT_AUTORESET" (!enable)
  | .EnableBlobIo enable => Setting.define "SQLITE_OMIT_INCRBLOB" (!enable)
  | .EnableColumnDeclaredType enable => Setting.define "SQLITE_OMIT_DECLTYPE" (!enable)
  | .EnableColumnMetadata enable => Setting.define "SQLITE_ENABLE_COLUMN_METADATA" enable
  | .EnableDatabasePagesVirtualTable enable => Setting.define "SQLITE_ENABLE_DBPAGE_VTAB" enable
  | .EnableDatabaseStatisticsVirtualTable enable =>
      Setting.define "SQLITE_ENABLE_DBSTAT_VTAB" enable
  | .EnableDatabaseUri enable => Setting.set "SQLITE_USE_URI" enable
  | .EnableDeprecated enable => Setting.define "SQLITE_OMIT_DEPRECATED" (!enable)
  | .EnableFts3 enable =>
      Setting.define "SQLITE_ENABLE_FTS3" enable ++
        Setting.define "SQLITE_ENABLE_FTS3_PARENTHESIS" enable
  | .EnableFts5 enable => Setting.define "SQLITE_ENABLE_FTS5" enable
  | .EnableGeopoly enable => Setting.define "SQLITE_ENABLE_GEOPOLY" enable
  | .EnableGetTable enable => Setting.define "SQLITE_OMIT_GET_TABLE" (!enable)
  | .EnableJson enable => Setting.define "SQLITE_OMIT_JSON" (!enable)
  | .EnableLoadExtension enable => Setting.define "SQLITE_OMIT_LOAD_EXTENSION" (!enable)
  | .EnableMemoryManagement enable => Setting.define "SQLITE_ENABLE_MEMORY_MANAGEMENT" enable
  | .EnableNormalizeSql enable => Setting.define "SQLITE_ENABLE_NORMALIZE" enable
  | .EnablePreUpdateHook enable => Setting.define "SQLITE_ENABLE_PREUPDATE_HOOK" enable
  | .EnableProgressCallback enable => Setting.define "SQLITE_OMIT_PROGRESS_CALLBACK" (!enable)
  | .EnableRtree enable => Setting.define "SQLITE_ENABLE_RTREE" enable
  | .EnableSerialize enable => Setting.define "SQLITE_OMIT_DESERIALIZE" (!enable)
  | .EnableSession enable => Setting.define "SQLITE_ENABLE_SESSION" enable
  | .EnableSharedCache enable => Setting.define "SQLITE_OMIT_SHARED_CACHE" (!enable)
  | .EnableSnapshot enable => Setting.define "SQLITE_ENABLE_SNAPSHOT" enable
  | .EnableSoundex enable => Setting.define "SQLITE_SOUNDEX" enable
  | .EnableStat4 enable => Setting.define "SQLITE_ENABLE_STAT4" enable
  | .EnableTclVariables enable => Setting.define "SQLITE_OMIT_TCL_VARIABLE" (!enable)
  | .EnableTemporaryDatabase enable => Setting.define "SQLITE_OMIT_TEMPDB" (!enable)
  | .EnableTrace enable => Setting.define "SQLITE_OMIT_TRACE" (!enable)
  | .EnableUtf16 enable => Setting.define "SQLITE_OMIT_UTF16" (!enable)
  | .EnableVirtualTables enable => Setting.define "SQLITE_OMIT_VIRTUALTABLE" (!enable)
  | .EnableWriteAheadLog enable => Setting.define "SQLITE_OMIT_WAL" (!enable)
  | .LikeOperatorCaseSensitive enable => Setting.define "SQLITE_CASE_SENSITIVE_LIKE" enable
  | .LikeOperatorMatchesBlob enable =>
      Setting.define "SQLITE_LIKE_DOESNT_MATCH_BLOBS" (!enable)
  | .MaxAttachedDatabases max => Setting.set "SQLITE_MAX_ATTACHED" max
  | .MaxColumns max => Setting.set "SQLITE_MAX_COLUMN" max
  | .MaxExpressionDepth max => Setting.set "SQLITE_MAX_EXPR_DEPTH" max
  | .MaxJsonDepth max => Setting.set "SQLITE_JSON_MAX_DEPTH" max
  | .MaxVariables max => Setting.set "SQLITE_MAX_VARIABLE_NUMBER" max
  | .SecureDelete enable => Setting.define "SQLITE_SECURE_DELETE" enable
  | .Sync synchronous => Setting.set "SQLITE_DEFAULT_SYNCHRONOUS" synchronous
  | .Threading threading => Setting.set "SQLITE_THREADSAFE" threading
  | .TemporaryStorage mode => Setting.set "SQLITE_TEMP_STORE" mode
  | .TrustedSchema enable => Setting.set "SQLITE_TRUSTED_SCHEMA" enable
  | .WalSync synchronous => Setting.set "SQLITE_DEFAULT_WAL_SYNCHRONOUS" synchronous

/-- `Config`: the `HashMap` from `SettingKey` to `Setting`, abstracted by
its lookup function (a hash map is exactly its key-to-value mapping; its
iteration order is unspecified and carries no semantics). -/
structure Config where
  settings : SettingKey → Option Setting

/-- `Config::set`: insert or replace the entry at the setting's key
(`HashMap::insert`). -/
def Config.set (c : Config) (s : Setting) : Config :=
  ⟨fun k => if k = s.discriminant then some s else c.settings k⟩

/-- `Config::new`: collect the sequence into the map, pairing each setting
with its discriminant; a later entry with the same key overwrites an
earlier one. -/
def Config.new (settings : List Setting) : Config :=
  settings.foldl Config.set ⟨fun _ => none⟩

/-- `Config::get`: look up the stored setting (a copy) by key. -/
def Config.get (c : Config) (k : SettingKey) : Option Setting :=
  c.settings k

/-- The literal list passed to `Config::new` by `impl Default for Config`,
in source order; the two `cfg(debug_assertions)` entries are appended only
in debug builds, so the list is parametrised by the build mode. -/
def Config.defaultSettings (debugAssertions : Bool) : List Setting :=
  [Setting.Sync Synchronous.Full,
   Setting.WalSync Synchronous.Normal,
   Setting.Threading Threading.MultiThread,
   Setting.DoubleQuotedStrings DoubleQuotedStrings.default,
   Setting.DefaultForeignKeys true,
   Setting.DefaultMemoryStatus false,
   Setting.EnableAlloca true,
   Setting.EnableAuthorization false,
   Setting.EnableAutomaticIndex true,
   Setting.EnableAutomaticInitialize true,
   Setting.EnableAutomaticReset false,
   Setting.EnableBlobIo false,
   Setting.EnableColumnDeclaredType false,
   Setting.EnableDatabasePagesVirtualTable false,
   Setting.EnableDatabaseStatisticsVirtualTable false,
   Setting.EnableDatabaseUri true,
   Setting.EnableDeprecated false,
   Setting.EnableGetTable false,
   Setting.EnableMemoryManagement true,
   Setting.EnableProgressCallback false,
   Setting.EnableSharedCache false,
   Setting.EnableTrace false,
   Setting.EnableUtf16 false,
   Setting.EnableVirtualTables true,
   Setting.EnableWriteAheadLog true,
   Setting.LikeOperatorMatchesBlob false,
   Setting.MaxExpressionDepth 0] ++
    (if debugAssertions then [Setting.EnableApiArmor true, Setting.Debug true] else [])

/-- `Config::default`, parametrised by the build mode (`debug_assertions`). -/
def Config.default (debugAssertions : Bool) : Config :=
  Config.new (Config.defaultSettings debugAssertions)

/-- All 55 `SettingKey`s, in declaration order: one canonical enumeration
of the map's key space, standing in for the hash map's unspecified
iteration order. -/
def SettingKey.all : List SettingKey :=
  [.DoubleQuotedStrings, .Threading, .Debug, .Sync, .WalSync,
   .DefaultAutomaticIndex, .DefaultAutomaticVacuum, .DefaultForeignKeys,
   .DefaultMemoryStatus, .EnableAlloca, .EnableApiArmor,
   .EnableAuthorization, .EnableAutomaticIndex, .EnableAutomaticInitialize,
   .EnableAutomaticReset, .EnableBlobIo, .EnableColumnDeclaredType,
   .EnableColumnMetadata, .EnableDatabasePagesVirtualTable,
   .EnableDatabaseStatisticsVirtualTable, .EnableDatabaseUri,
   .EnableDeprecated, .EnableGeopoly, .EnableGetTable, .EnableFts3,
   .EnableFts5, .EnableJson, .EnableLoadExtension, .EnableMemoryManagement,
   .EnableNormalizeSql, .EnablePreUpdateHook, .EnableProgressCallback,
   .EnableRtree, .EnableStat4, .EnableSerialize, .EnableSession,
   .EnableSnapshot, .EnableSharedCache, .EnableSoundex,
   .EnableTclVariables, .EnableTemporaryDatabase, .EnableTrace,
   .EnableUtf16, .EnableVirtualTables, .EnableWriteAheadLog,
   .LikeOperatorCaseSensitive, .LikeOperatorMatchesBlob,
   .MaxAttachedDatabases, .MaxColumns, .MaxExpressionDepth, .MaxJsonDepth,
   .MaxVariables, .SecureDelete, .TemporaryStorage, .TrustedSchema]

/-- `Config::apply` on an explicit iteration order of stored settings:
render each setting and concatenate the resulting definitions (the driver
receives exactly this multiset of pairs). -/
def applyAll (settings : List Setting) : List (String × Option String) :=
  settings.flatMap Setting.apply

/-- `Config::apply` under the canonical key enumeration: the stored
settings (values of the map) rendered and concatenated. -/
def Config.renderAll (c : Config) : List (String × Option String) :=
  applyAll (SettingKey.all.filterMap c.settings)

/-- The symbols a setting with the given key can ever define: the symbol
names occurring in the matching arm of `Setting::apply`. -/
def SettingKey.symbols : SettingKey → List String
  | .DoubleQuotedStrings => ["SQLITE_DQS"]
  | .Threading => ["SQLITE_THREADSAFE"]
  | .Debug => ["SQLITE_DEBUG"]
  | .Sync => ["SQLITE_DEFAULT_SYNCHRONOUS"]
  | .WalSync => ["SQLITE_DEFAULT_WAL_SYNCHRONOUS"]
  | .DefaultAutomaticIndex => ["SQLITE_DEFAULT_AUTOMATIC_INDEX"]
  | .DefaultAutomaticVacuum => ["SQLITE_DEFAULT_AUTOVACUUM"]
  | .DefaultForeignKeys => ["SQLITE_DEFAULT_FOREIGN_KEYS"]
  | .DefaultMemoryStatus => ["SQLITE_DEFAULT_MEMSTATUS"]
  | .EnableAlloca => ["SQLITE_USE_ALLOCA"]
  | .EnableApiArmor => ["SQLITE_ENABLE_API_ARMOR"]
  | .EnableAuthorization => ["SQLITE_OMIT_AUTHORIZATION"]
  | .EnableAutomaticIndex => ["SQLITE_OMIT_AUTOMATIC_INDEX"]
  | .EnableAutomaticInitialize => ["SQLITE_OMIT_AUTOINIT"]
  | .EnableAutomaticReset => ["SQLITE_OMIT_AUTORESET"]
  | .EnableBlobIo => ["SQLITE_OMIT_INCRBLOB"]
  | .EnableColumnDeclaredType => ["SQLITE_OMIT_DECLTYPE"]
  | .EnableColumnMetadata => ["SQLITE_ENABLE_COLUMN_METADATA"]
  | .EnableDatabasePagesVirtualTable => ["SQLITE_ENABLE_DBPAGE_VTAB"]
  | .EnableDatabaseStatisticsVirtualTable => ["SQLITE_ENABLE_DBSTAT_VTAB"]
  | .EnableDatabaseUri => ["SQLITE_USE_URI"]
  | .EnableDeprecated => ["SQLITE_OMIT_DEPRECATED"]
  | .EnableGeopoly => ["SQLITE_ENABLE_GEOPOLY"]
  | .EnableGetTable => ["SQLITE_OMIT_GET_TABLE"]
  | .EnableFts3 => ["SQLITE_ENABLE_FTS3", "SQLITE_ENABLE_FTS3_PARENTHESIS"]
  | .EnableFts5 => ["SQLITE_ENABLE_FTS5"]
  | .EnableJson => ["SQLITE_OMIT_JSON"]
  | .EnableLoadExtension => ["SQLITE_OMIT_LOAD_EXTENSION"]
  | .EnableMemoryManagement => ["SQLITE_ENABLE_MEMORY_MANAGEMENT"]
  | .EnableNormalizeSql => ["SQLITE_ENABLE_NORMALIZE"]
  | .EnablePreUpdateHook => ["SQLITE_ENABLE_PREUPDATE_HOOK"]
  | .EnableProgressCallback => ["SQLITE_OMIT_PROGRESS_CALLBACK"]
  | .EnableRtree => ["SQLITE_ENABLE_RTREE"]
  | .EnableStat4 => ["SQLITE_ENABLE_STAT4"]
  | .EnableSerialize => ["SQLITE_OMIT_DESERIALIZE"]
  | .EnableSession => ["SQLITE_ENABLE_SESSION"]
  | .EnableSnapshot => ["SQLITE_ENABLE_SNAPSHOT"]
  | .EnableSharedCache => ["SQLITE_OMIT_SHARED_CACHE"]
  | .EnableSoundex => ["SQLITE_SOUNDEX"]
  | .EnableTclVariables => ["SQLITE_OMIT_TCL_VARIABLE"]
  | .EnableTemporaryDatabase => ["SQLITE_OMIT_TEMPDB"]
  | .EnableTrace => ["SQLITE_OMIT_TRACE"]
  | .EnableUtf16 => ["SQLITE_OMIT_UTF16"]
  | .EnableVirtualTables => ["SQLITE_OMIT_VIRTUALTABLE"]
  | .EnableWriteAheadLog => ["SQLITE_OMIT_WAL"]
  | .LikeOperatorCaseSensitive => ["SQLITE_CASE_SENSITIVE_LIKE"]
  | .LikeOperatorMatchesBlob => ["SQLITE_LIKE_DOESNT_MATCH_BLOBS"]
  | .MaxAttachedDatabases => ["SQLITE_MAX_ATTACHED"]
  | .MaxColumns => ["SQLITE_MAX_COLUMN"]
  | .MaxExpressionDepth => ["SQLITE_MAX_EXPR_DEPTH"]
  | .MaxJsonDepth => ["SQLITE_JSON_MAX_DEPTH"]
  | .MaxVariables => ["SQLITE_MAX_VARIABLE_NUMBER"]
  | .SecureDelete => ["SQLITE_SECURE_DELETE"]
  | .TemporaryStorage => ["SQLITE_TEMP_STORE"]
  | .TrustedSchema => ["SQLITE_TRUSTED_SCHEMA"]

/-- Whether two settings are built from the same enum variant (the same
constructor), ignoring payloads: the structural notion of "same variant"
used to state that key extraction is injective on variants. -/
def Setting.sameVariant : Setting → Setting → Bool
  | .DoubleQuotedStrings _, .DoubleQuotedStrings _ => true
  | .Threading _, .Threading _ => true
  | .Debug _, .Debug _ => true
  | .Sync _, .Sync _ => true
  | .WalSync _, .WalSync _ => true
  | .DefaultAutomaticIndex _, .DefaultAutomaticIndex _ => true
  | .DefaultAutomaticVacuum _, .DefaultAutomaticVacuum _ => true
  | .DefaultForeignKeys _, .DefaultForeignKeys _ => true
  | .DefaultMemoryStatus _, .DefaultMemoryStatus _ => true
  | .EnableAlloca _, .EnableAlloca _ => true
  | .EnableApiArmor _, .EnableApiArmor _ => true
  | .EnableAuthorization _, .EnableAuthorization _ => true
  | .EnableAutomaticIndex _, .EnableAutomaticIndex _ => true
  | .EnableAutomaticInitialize _, .EnableAutomaticInitialize _ => true
  | .EnableAutomaticReset _, .EnableAutomaticReset _ => true
  | .EnableBlobIo _, .EnableBlobIo _ => true
  | .EnableColumnDeclaredType _, .EnableColumnDeclaredType _ => true
  | .EnableColumnMetadata _, .EnableColumnMetadata _ => true
  | .EnableDatabasePagesVirtualTable _, .EnableDatabasePagesVirtualTable _ => true
  | .EnableDatabaseStatisticsVirtualTable _, .EnableDatabaseStatisticsVirtualTable _ => true
  | .EnableDatabaseUri _, .EnableDatabaseUri _ => true
  | .EnableDeprecated _, .EnableDeprecated _ => true
  | .EnableGeopoly _, .EnableGeopoly _ => true
  | .EnableGetTable _, .EnableGetTable _ => true
  | .EnableFts3 _, .EnableFts3 _ => true
  | .EnableFts5 _, .EnableFts5 _ => true
  | .EnableJson _, .EnableJson _ => true
  | .EnableLoadExtension _, .EnableLoadExtension _ => true
  | .EnableMemoryManagement _, .EnableMemoryManagement _ => true
  | .EnableNormalizeSql _, .EnableNormalizeSql _ => true
  | .EnablePreUpdateHook _, .EnablePreUpdateHook _ => true
  | .EnableProgressCallback _, .EnableProgressCallback _ => true
  | .EnableRtree _, .EnableRtree _ => true
  | .EnableStat4 _, .EnableStat4 _ => true
  | .EnableSerialize _, .EnableSerialize _ => true
  | .EnableSession _, .EnableSession _ => true
  | .EnableSnapshot _, .EnableSnapshot _ => true
  | .EnableSharedCache _, .EnableSharedCache _ => true
  | .EnableSoundex _, .EnableSoundex _ => true
  | .EnableTclVariables _, .EnableTclVariables _ => true
  | .EnableTemporaryDatabase _, .EnableTemporaryDatabase _ => true
  | .EnableTrace _, .EnableTrace _ => true
  | .EnableUtf16 _, .EnableUtf16 _ => true
  | .EnableVirtualTables _, .EnableVirtualTables _ => true
  | .EnableWriteAheadLog _, .EnableWriteAheadLog _ => true
  | .LikeOperatorCaseSensitive _, .LikeOperatorCaseSensitive _ => true
  | .LikeOperatorMatchesBlob _, .LikeOperatorMatchesBlob _ => true
  | .MaxAttachedDatabases _, .MaxAttachedDatabases _ => true
  | .MaxColumns _, .MaxColumns _ => true
  | .MaxExpressionDepth _, .MaxExpressionDepth _ => true
  | .MaxJsonDepth _, .MaxJsonDepth _ => true
  | .MaxVariables _, .MaxVariables _ => true
  | .SecureDelete _, .SecureDelete _ => true
  | .TemporaryStorage _, .TemporaryStorage _ => true
  | .TrustedSchema _, .TrustedSchema _ => true
  | _, _ => false

/-- Modelled from the spec: the documented default table of spec section 6,
exactly as written there (17 entries, plus two debug-build-only entries),
with every key the table does not mention unset. Used to compare the
specified default against the code's `Config::default`. -/
def specDefaultTable (debugAssertions : Bool) : SettingKey → Option Setting
  | .Sync => some (.Sync .Full)
  | .WalSync => some (.WalSync .Normal)
  | .Threading => some (.Threading .MultiThread)
  | .DoubleQuotedStrings => some (.DoubleQuotedStrings ⟨false, false⟩)
  | .DefaultForeignKeys => some (.DefaultForeignKeys true)
  | .DefaultMemoryStatus => some (.DefaultMemoryStatus false)
  | .EnableAlloca => some (.EnableAlloca true)
  | .EnableAutomaticIndex => some (.EnableAutomaticIndex true)
  | .EnableAutomaticInitialize => some (.EnableAutomaticInitialize true)
  | .EnableDatabaseUri => some (.EnableDatabaseUri true)
  | .EnableDeprecated => some (.EnableDeprecated false)
  | .EnableMemoryManagement => some (.EnableMemoryManagement true)
  | .EnableProgressCallback => some (.EnableProgressCallback false)
  | .EnableSharedCache => some (.EnableSharedCache false)
  | .EnableTrace => some (.EnableTrace false)
  | .LikeOperatorMatchesBlob => some (.LikeOperatorMatchesBlob false)
  | .MaxExpressionDepth => some (.MaxExpressionDepth 0)
  | .EnableApiArmor => if debugAssertions then some (.EnableApiArmor true) else none
  | .Debug => if debugAssertions then some (.Debug true) else none
  | _ => none

/-- The table `Config::default` actually stores, per build mode: the spec's
documented entries plus the ten additional defaults present in the source
(authorization, automatic reset, incremental blob I/O, declared column
type, dbpage and dbstat virtual tables, get-table, UTF-16, virtual tables,
write-ahead log). -/
def defaultTable (debugAssertions : Bool) : SettingKey → Option Setting
  | .Sync => some (.Sync .Full)
  | .WalSync => some (.WalSync .Normal)
  | .Threading => some (.Threading .MultiThread)
  | .DoubleQuotedStrings => some (.DoubleQuotedStrings ⟨false, false⟩)
  | .DefaultForeignKeys => some (.DefaultForeignKeys true)
  | .DefaultMemoryStatus => some (.DefaultMemoryStatus false)
  | .EnableAlloca => some (.EnableAlloca true)
  | .EnableAuthorization => some (.EnableAuthorization false)
  | .EnableAutomaticIndex => some (.EnableAutomaticIndex true)
  | .EnableAutomaticInitialize => some (.EnableAutomaticInitialize true)
  | .EnableAutomaticReset => some (.EnableAutomaticReset false)
  | .EnableBlobIo => some (.EnableBlobIo false)
  | .EnableColumnDeclaredType => some (.EnableColumnDeclaredType false)
  | .EnableDatabasePagesVirtualTable => some (.EnableDatabasePagesVirtualTable false)
  | .EnableDatabaseStatisticsVirtualTable => some (.EnableDatabaseStatisticsVirtualTable false)
  | .EnableDatabaseUri => some (.EnableDatabaseUri true)
  | .EnableDeprecated => some (.EnableDeprecated false)
  | .EnableGetTable => some (.EnableGetTable false)
  | .EnableMemoryManagement => some (.EnableMemoryManagement true)
  | .EnableProgressCallback => some (.EnableProgressCallback false)
  | .EnableSharedCache => some (.EnableSharedCache false)
  | .EnableTrace => some (.EnableTrace false)
  | .EnableUtf16 => some (.EnableUtf16 false)
  | .EnableVirtualTables => some (.EnableVirtualTables true)
  | .EnableWriteAheadLog => some (.EnableWriteAheadLog true)
  | .LikeOperatorMatchesBlob => some (.LikeOperatorMatchesBlob false)
  | .MaxExpressionDepth => some (.MaxExpressionDepth 0)
  | .EnableApiArmor => if debugAssertions then some (.EnableApiArmor true) else none
  | .Debug => if debugAssertions then some (.Debug true) else none
  | _ => none

theorem fst_of_mem_define {p : String × Option String} {n : String} {e : Bool}
    (h : p ∈ Setting.define n e) : p.1 = n := by
  cases e with
  | false => simp [Setting.define] at h
  | true =>
      simp [Setting.define] at h
      rw [h]

theorem fst_of_mem_singleton {p q : String × Option String} (h : p ∈ [q]) : p.1 = q.1 := by
  rw [List.mem_singleton.mp h]

theorem apply_fst_mem (s : Setting) (p : String × Option String)
    (hp : p ∈ s.apply) : p.1 ∈ s.discriminant.symbols := by
  cases s <;>
    first
      | exact List.mem_singleton.mpr (fst_of_mem_define hp)
      | exact List.mem_singleton.mpr (fst_of_mem_singleton hp)
      | (rcases List.mem_append.mp hp with h | h <;>
           simp [fst_of_mem_define h, Setting.discriminant, SettingKey.symbols])

/-- Claim C2: every inverted-boolean setting (semantic "enable", native
symbol "omit") renders payload true to no definition at all, and payload
false to exactly one definition: the native omit symbol with no value. -/
theorem inverted_boolean_rendering :
    (Setting.apply (Setting.EnableAuthorization true) = [] ∧
      Setting.apply (Setting.EnableAuthorization false) = [("SQLITE_OMIT_AUTHORIZATION", none)]) ∧
    (Setting.apply (Setting.EnableAutomaticIndex true) = [] ∧
      Setting.apply (Setting.EnableAutomaticIndex false) = [("SQLITE_OMIT_AUTOMATIC_INDEX", none)]) ∧
    (Setting.apply (Setting.EnableAutomaticInitialize true) = [] ∧
      Setting.apply (Setting.EnableAutomaticInitialize false) = [("SQLITE_OMIT_AUTOINIT", none)]) ∧
    (Setting.apply (Setting.EnableAutomaticReset true) = [] ∧
      Setting.apply (Setting.EnableAutomaticReset false) = [("SQLITE_OMIT_AUTORESET", none)]) ∧
    (Setting.apply (Setting.EnableBlobIo true) = [] ∧
      Setting.apply (Setting.EnableBlobIo false) = [("SQLITE_OMIT_INCRBLOB", none)]) ∧
    (Setting.apply (Setting.EnableColumnDeclaredType true) = [] ∧
      Setting.apply (Setting.EnableColumnDeclaredType false) = [("SQLITE_OMIT_DECLTYPE", none)]) ∧
    (Setting.apply (Setting.EnableDeprecated true) = [] ∧
      Setting.apply (Setting.EnableDeprecated false) = [("SQLITE_OMIT_DEPRECATED", none)]) ∧
    (Setting.apply (Setting.EnableGetTable true) = [] ∧
      Setting.apply (Setting.EnableGetTable false) = [("SQLITE_OMIT_GET_TABLE", none)]) ∧
    (Setting.apply (Setting.EnableJson true) = [] ∧
      Setting.apply (Setting.EnableJson false) = [("SQLITE_OMIT_JSON", none)]) ∧
    (Setting.apply (Setting.EnableLoadExtension true) = [] ∧
      Setting.apply (Setting.EnableLoadExtension false) = [("SQLITE_OMIT_LOAD_EXTENSION", none)]) ∧
    (Setting.apply (Setting.EnableProgressCallback true) = [] ∧
      Setting.apply (Setting.EnableProgressCallback false) = [("SQLITE_OMIT_PROGRESS_CALLBACK", none)]) ∧
    (Setting.apply (Setting.EnableSerialize true) = [] ∧
      Setting.apply (Setting.EnableSerialize false) = [("SQLITE_OMIT_DESERIALIZE", none)]) ∧
    (Setting.apply (Setting.EnableSharedCache true) = [] ∧
      Setting.apply (Setting.EnableSharedCache false) = [("SQLITE_OMIT_SHARED_CACHE", none)]) ∧
    (Setting.apply (Setting.EnableTclVariables true) = [] ∧
      Setting.apply (Setting.EnableTclVariables false) = [("SQLITE_OMIT_TCL_VARIABLE", none)]) ∧
    (Setting.apply (Setting.EnableTemporaryDatabase true) = [] ∧
      Setting.apply (Setting.EnableTemporaryDatabase false) = [("SQLITE_OMIT_TEMPDB", none)]) ∧
    (Setting.apply (Setting.EnableTrace true) = [] ∧
      Setting.apply (Setting.EnableTrace false) = [("SQLITE_OMIT_TRACE", none)]) ∧
    (Setting.apply (Setting.EnableUtf16 true) = [] ∧
      Setting.apply (Setting.EnableUtf16 false) = [("SQLITE_OMIT_UTF16", none)]) ∧
    (Setting.apply (Setting.EnableVirtualTables true) = [] ∧
      Setting.apply (Setting.EnableVirtualTables false) = [("SQLITE_OMIT_VIRTUALTABLE", none)]) ∧
    (Setting.apply (Setting.EnableWriteAheadLog true) = [] ∧
      Setting.apply (Setting.EnableWriteAheadLog false) = [("SQLITE_OMIT_WAL", none)]) ∧
    (Setting.apply (Setting.LikeOperatorMatchesBlob true) = [] ∧
      Setting.apply (Setting.LikeOperatorMatchesBlob false) = [("SQLITE_LIKE_DOESNT_MATCH_BLOBS", none)]) := by
  exact ⟨⟨rfl, rfl⟩, ⟨rfl, rfl⟩, ⟨rfl, rfl⟩, ⟨rfl, rfl⟩, ⟨rfl, rfl⟩, ⟨rfl, rfl⟩, ⟨rfl, rfl⟩, ⟨rfl, rfl⟩, ⟨rfl, rfl⟩, ⟨rfl, rfl⟩, ⟨rfl, rfl⟩, ⟨rfl, rfl⟩, ⟨rfl, rfl⟩, ⟨rfl, rfl⟩, ⟨rfl, rfl⟩, ⟨rfl, rfl⟩, ⟨rfl, rfl⟩, ⟨rfl, rfl⟩, ⟨rfl, rfl⟩, ⟨rfl, rfl⟩⟩

set_option maxHeartbeats 4000000 in
theorem discriminant_beq (s t : Setting) :
    (s.discriminant == t.discriminant) = Setting.sameVariant s t := by
  cases s <;> cases t <;> rfl

set_option maxRecDepth 16000 in
set_option maxHeartbeats 4000000 in
theorem symbols_disjoint (k1 k2 : SettingKey) (h : k1 ≠ k2) :
    ∀ n1 ∈ k1.symbols, n1 ∉ k2.symbols := by
  revert k1 k2
  decide

theorem get_foldl_of_no_key (c : Config) (l : List Setting) (k : SettingKey)
    (h : ∀ u ∈ l, u.discriminant ≠ k) : (l.foldl Config.set c).get k = c.get k := by
  induction l generalizing c with
  | nil => rfl
  | cons u l ih =>
      rw [List.foldl_cons, ih (c.set u) (fun v hv => h v (List.mem_cons_of_mem _ hv))]
      have hne : k ≠ u.discriminant := fun hk => h u (List.mem_cons_self _ _) hk.symm
      simp [Config.set, Config.get, hne]

/-- Claim C1: the two-boolean composite DoubleQuotedStrings renders to
exactly one definition, the packed symbol SQLITE_DQS with the decimal
string of the 2-bit packing; the four combinations map to 0, 1, 2, 3 with
no collision, and in particular in_ddl true with in_dml false gives "2". -/
theorem dqs_packed_rendering :
    (Setting.apply (Setting.DoubleQuotedStrings ⟨false, false⟩) = [("SQLITE_DQS", some "0")]) ∧
    (Setting.apply (Setting.DoubleQuotedStrings ⟨false, true⟩) = [("SQLITE_DQS", some "1")]) ∧
    (Setting.apply (Setting.DoubleQuotedStrings ⟨true, false⟩) = [("SQLITE_DQS", some "2")]) ∧
    (Setting.apply (Setting.DoubleQuotedStrings ⟨true, true⟩) = [("SQLITE_DQS", some "3")]) ∧
    (∀ a b c d : Bool,
      Setting.apply (Setting.DoubleQuotedStrings ⟨a, b⟩) =
          Setting.apply (Setting.DoubleQuotedStrings ⟨c, d⟩) →
        a = c ∧ b = d) := by
  decide

/-- Claim C3: constructing a Config from a sequence holding two settings
with the same key makes get return the later one of the sequence. -/
theorem new_last_write_wins (l1 l2 l3 : List Setting) (s t : Setting)
    (_hkey : s.discriminant = t.discriminant)
    (h3 : ∀ u ∈ l3, u.discriminant ≠ t.discriminant) :
    (Config.new (l1 ++ s :: l2 ++ t :: l3)).get t.discriminant = some t := by
  unfold Config.new
  rw [List.foldl_append, List.foldl_cons, List.foldl_append, List.foldl_cons,
    get_foldl_of_no_key _ _ _ h3]
  simp [Config.set, Config.get]

/-- Witness for C3 at the spec's own example: new of Sync Normal then
Sync Full gets Sync Full. -/
theorem new_last_write_wins_witness :
    (Config.new [Setting.Sync Synchronous.Normal, Setting.Sync Synchronous.Full]).get
        SettingKey.Sync = some (Setting.Sync Synchronous.Full) := by
  simpa using new_last_write_wins [] [] [] (Setting.Sync Synchronous.Normal)
    (Setting.Sync Synchronous.Full) rfl (by simp)

/-- Claim C4 (counterexample): the default Config stores an entry the
documented section-6 table does not mention at all (virtual tables on),
so default is not exactly the table with nothing outside it. -/
theorem default_beyond_spec_table :
    (Config.default false).get SettingKey.EnableVirtualTables =
        some (Setting.EnableVirtualTables true) ∧
    specDefaultTable false SettingKey.EnableVirtualTables = none :=
  ⟨rfl, rfl⟩

/-- Claim C4 (amended): for each build mode, the default Config is exactly
the documented table extended with the source's ten further defaults, and
nothing else; it is a fixed value of the embedding, hence deterministic. -/
theorem default_matches_full_table :
    ∀ debugAssertions : Bool, ∀ k : SettingKey,
      (Config.default debugAssertions).get k = defaultTable debugAssertions k := by
  intro debugAssertions k
  cases debugAssertions <;> cases k <;> rfl

/-- Claim C5: key extraction returns equal keys exactly for settings built
from the same variant, regardless of payloads: payload-independence and
injectivity on variants in one equivalence. -/
theorem key_extraction_variant_iff (s t : Setting) :
    s.discriminant = t.discriminant ↔ Setting.sameVariant s t = true := by
  rw [← beq_iff_eq (a := s.discriminant) (b := t.discriminant), discriminant_beq]

/-- Claim C6: the full-text-search toggle fans out to its two related
native symbols together, both with the same derived truth: payload true
defines both symbols valueless, payload false defines neither. -/
theorem fts3_fanout_rendering :
    Setting.apply (Setting.EnableFts3 true) =
        [("SQLITE_ENABLE_FTS3", none), ("SQLITE_ENABLE_FTS3_PARENTHESIS", none)] ∧
    Setting.apply (Setting.EnableFts3 false) = [] := by
  decide

/-- Claim C7: rendering a whole Config is order-independent and idempotent:
permuting the iterated settings never changes the set of emitted
definitions, and settings with distinct keys emit disjoint symbol names. -/
theorem config_render_order_independent :
    (∀ l1 l2 : List Setting, List.Perm l1 l2 →
      ∀ p : String × Option String, p ∈ applyAll l1 ↔ p ∈ applyAll l2) ∧
    (∀ s t : Setting, s.discriminant ≠ t.discriminant →
      ∀ p ∈ Setting.apply s, ∀ q ∈ Setting.apply t, p.1 ≠ q.1) := by
  constructor
  · intro l1 l2 h p
    exact (h.flatMap_right Setting.apply).mem_iff
  · intro s t hst p hp q hq
    exact symbols_disjoint s.discriminant t.discriminant hst p.1 (apply_fst_mem s p hp) ∘
      (fun hpq => hpq ▸ apply_fst_mem t q hq)

/-- Witness for C7: a concrete two-setting permutation whose rendering is
membership-equal, and a concrete pair of distinct-key settings with
distinct emitted symbols. -/
theorem config_render_order_independent_witness :
    (("SQLITE_DEBUG", (none : Option String)) ∈
        applyAll [Setting.Sync Synchronous.Full, Setting.Debug true]) ∧
    ("SQLITE_DEBUG" : String) ≠ "SQLITE_DEFAULT_SYNCHRONOUS" := by
  constructor
  · exact (config_render_order_independent.1 [Setting.Debug true, Setting.Sync Synchronous.Full]
      [Setting.Sync Synchronous.Full, Setting.Debug true]
      (List.Perm.swap (Setting.Sync Synchronous.Full) (Setting.Debug true) [])
      ("SQLITE_DEBUG", none)).mp (by decide)
  · exact config_render_order_independent.2 (Setting.Debug true) (Setting.Sync Synchronous.Full)
      (by decide) ("SQLITE_DEBUG", none) (by decide)
      ("SQLITE_DEFAULT_SYNCHRONOUS", some "2") (by decide)

set_option maxRecDepth 16000 in
/-- Claim C8: overriding the default Config with MaxExpressionDepth 500
renders the pair SQLITE_MAX_EXPR_DEPTH value "500" exactly once, and every
other definition of the unmodified default is rendered unchanged. -/
theorem default_override_max_expr_depth :
    ∀ debugAssertions : Bool,
      ((Config.default debugAssertions).set (Setting.MaxExpressionDepth 500)).renderAll =
        (Config.default debugAssertions).renderAll.map
          (fun p => if p.1 = "SQLITE_MAX_EXPR_DEPTH" then (p.1, some "500") else p) ∧
      (((Config.default debugAssertions).set
            (Setting.MaxExpressionDepth 500)).renderAll.count
          ("SQLITE_MAX_EXPR_DEPTH", some "500")) = 1 := by
  decide

/-- Claim C9: rendering is total and deterministic over the closed Setting
universe: every setting renders to a definition list, and equal settings
render to equal lists, order included. -/
theorem apply_total_deterministic :
    (∀ s : Setting, ∃ defs : List (String × Option String), Setting.apply s = defs) ∧
    (∀ s t : Setting, s = t → Setting.apply s = Setting.apply t) :=
  ⟨fun s => ⟨Setting.apply s, rfl⟩, fun _ _ h => h ▸ rfl⟩

/-- Witness for C9 at a concrete setting. -/
theorem apply_total_deterministic_witness :
    Setting.apply (Setting.EnableFts5 true) = Setting.apply (Setting.EnableFts5 true) :=
  apply_total_deterministic.2 (Setting.EnableFts5 true) (Setting.EnableFts5 true) rfl

/-- Claim C10: set is frame-preserving: after setting one setting, get at
every other key is unchanged. -/
theorem set_frame_preserves_other_keys (c : Config) (s : Setting) (k : SettingKey)
    (h : k ≠ s.discriminant) : (c.set s).get k = c.get k := by
  simp [Config.set, Config.get, h]

/-- Witness for C10 at a concrete config, setting and key. -/
theorem set_frame_preserves_other_keys_witness :
    ((Config.new []).set (Setting.Debug true)).get SettingKey.Sync =
      (Config.new []).get SettingKey.Sync :=
  set_frame_preserves_other_keys (Config.new []) (Setting.Debug true) SettingKey.Sync
    (by decide)
